import Mathlib

/-!
Shallow embedding of the prerender-shim render orchestration engine
(src/index.js, class PrerenderServer) and proofs of the specified
properties.

The JavaScript code is promise-chain sequential code over external
collaborators (the webdriver pool, the driver session, the TTL cache).
We embed it as a deterministic interpreter over an environment that
fixes the outcome of every external step of one render attempt
(acquisition, probe, explicit wait, marker check, extraction, and the
point, if any, at which the overall renderTimeout deadline expires).
Each run yields the list of observable pool/driver events together with
the value or error the promise chain settles with.
-/

namespace PrerenderShim

/-- Model of a JavaScript value as probed from the page
(window.prerenderReady can be any JS value; the code compares it with
strict equality against false and undefined). -/
inductive JsValue
  | undef
  | null
  | bool (b : Bool)
  | num (n : Int)
  | str (s : String)
deriving DecidableEq, Repr

/-- Error classification relevant to driverRun's catch handler: the only
inspection the code performs is error.code === 'ECONNREFUSED'; Bluebird's
.timeout rejection is one further concrete kind, everything else is
opaque. -/
inductive ErrCode
  | econnrefused
  | timeoutErr
  | other (msg : String)
deriving DecidableEq, Repr

/-- Result object of driverRun: { pageOk, source } (src/index.js lines
124-130). -/
structure RenderInfo where
  pageOk : Bool
  source : String
deriving DecidableEq, Repr

/-- Observable pool/driver events of one attempt.  The release event
carries the session handle the code passes to pool.returnDriver — an
Option, because in the catch handler the local variable driver is still
undefined when pool.getDriver() itself never completed — and the discard
flag of the spec's release(session, opts: \x7bdiscard\x7d) interface.
The source calls pool.returnDriver(driver) with no options anywhere, so
the embedding records discard = false for every release the code makes. -/
inductive Event
  | acquire (sid : Nat)
  | waitPoll (becameReady : Bool)
  | sleep (ms : Nat)
  | checkMarker
  | extract
  | release (sid : Option Nat) (discard : Bool)
deriving DecidableEq, Repr

/-- Configuration options consumed by the orchestration code
(src/index.js lines 203-213). -/
structure Config where
  explicitTimeout : Nat
  implicitTimeout : Nat
  renderTimeout : Nat
  maxRetries : Nat
  cacheTTL : Nat
deriving DecidableEq, Repr

instance {ε α : Type} [DecidableEq ε] [DecidableEq α] :
    DecidableEq (Except ε α) := fun a b =>
  match a, b with
  | Except.error e, Except.error f => decidable_of_iff (e = f) (by simp)
  | Except.error _, Except.ok _ => Decidable.isFalse (by simp)
  | Except.ok _, Except.error _ => Decidable.isFalse (by simp)
  | Except.ok x, Except.ok y => decidable_of_iff (x = y) (by simp)

/-- Environment fixing the outcome of every external step of one
driverRun attempt.  timeoutAt = some k means the renderTimeout deadline
(.timeout(config.renderTimeout), src/index.js line 132) expires after
the steps before k completed and before step k completed; the step
numbering is 0 = pool.getDriver, 1 = navigation/probe
(driver.get + executeScript), 2 = explicit wait / implicit sleep,
3 = isElementPresent, 4 = getPageSource, 5 = success-path returnDriver.
Errors raised while the driver.wait poll loop runs are swallowed by its
.catch (line 113), so the wait step needs only the Bool saying whether
the page became ready before explicitTimeout. -/
structure DriverEnv where
  acquire : Except ErrCode Nat
  probeResult : Except ErrCode JsValue
  waitBecomesReady : Bool
  markerResult : Except ErrCode Bool
  sourceResult : Except ErrCode String
  timeoutAt : Option (Fin 6)
deriving DecidableEq, Repr

/-- Catch handler of driverRun (src/index.js lines 133-145): on any
error it calls pool.returnDriver(driver) — with the driver variable as
currently bound, possibly undefined — and rethrows.  The
ECONNREFUSED branch only adds a console.warn; the pool call it makes is
the same plain returnDriver(driver) with no discard option. -/
def catchHandler (driver : Option Nat) (e : ErrCode) :
    List Event × Except ErrCode RenderInfo :=
  if e = ErrCode.econnrefused then
    ([Event.release driver false], Except.error e)
  else
    ([Event.release driver false], Except.error e)

/-- PrerenderServer.driverRun (src/index.js lines 96-146): one render
attempt.  pool.getDriver, then driver.get(url) (whose failure surfaces
at the next queued command), then getPrerenderState; strict comparison
of the probed value against false (explicit wait, timeout swallowed)
and undefined (fixed sleep of implicitTimeout); then isElementPresent
on meta[name=fragment], getPageSource, and pool.returnDriver before the
result resolves.  The whole chain is raced against renderTimeout and
any rejection goes through catchHandler. -/
def driverRun (cfg : Config) (env : DriverEnv) :
    List Event × Except ErrCode RenderInfo :=
  if env.timeoutAt = some 0 then
    catchHandler none ErrCode.timeoutErr
  else
    match env.acquire with
    | Except.error e => catchHandler none e
    | Except.ok sid =>
      if env.timeoutAt = some 1 then
        let (evs, r) := catchHandler (some sid) ErrCode.timeoutErr
        (Event.acquire sid :: evs, r)
      else
        match env.probeResult with
        | Except.error e =>
          let (evs, r) := catchHandler (some sid) e
          (Event.acquire sid :: evs, r)
        | Except.ok v =>
          if env.timeoutAt = some 2 then
            let (evs, r) := catchHandler (some sid) ErrCode.timeoutErr
            (Event.acquire sid :: evs, r)
          else
            let waitEvs : List Event :=
              if v = JsValue.bool false then
                [Event.waitPoll env.waitBecomesReady]
              else if v = JsValue.undef then
                [Event.sleep cfg.implicitTimeout]
              else
                []
            if env.timeoutAt = some 3 then
              let (evs, r) := catchHandler (some sid) ErrCode.timeoutErr
              (Event.acquire sid :: waitEvs ++ evs, r)
            else
              match env.markerResult with
              | Except.error e =>
                let (evs, r) := catchHandler (some sid) e
                (Event.acquire sid :: waitEvs ++ [Event.checkMarker] ++ evs, r)
              | Except.ok pageOk =>
                if env.timeoutAt = some 4 then
                  let (evs, r) := catchHandler (some sid) ErrCode.timeoutErr
                  (Event.acquire sid :: waitEvs ++ [Event.checkMarker] ++ evs, r)
                else
                  match env.sourceResult with
                  | Except.error e =>
                    let (evs, r) := catchHandler (some sid) e
                    (Event.acquire sid :: waitEvs ++
                      [Event.checkMarker, Event.extract] ++ evs, r)
                  | Except.ok source =>
                    if env.timeoutAt = some 5 then
                      let (evs, r) := catchHandler (some sid) ErrCode.timeoutErr
                      (Event.acquire sid :: waitEvs ++
                        [Event.checkMarker, Event.extract] ++ evs, r)
                    else
                      (Event.acquire sid :: waitEvs ++
                        [Event.checkMarker, Event.extract,
                          Event.release (some sid) false],
                        Except.ok { pageOk := pageOk, source := source })

/-- True exactly on acquire events. -/
def isAcquire : Event → Bool
  | Event.acquire _ => true
  | _ => false

/-- True exactly on release events. -/
def isRelease : Event → Bool
  | Event.release _ _ => true
  | _ => false

/-- True exactly on sleep events. -/
def isSleep : Event → Bool
  | Event.sleep _ => true
  | _ => false

/-- True exactly on explicit-wait poll events. -/
def isWaitPoll : Event → Bool
  | Event.waitPoll _ => true
  | _ => false

/-- Session ids of the acquire events of a trace, in order. -/
def acquiredSids (t : List Event) : List Nat :=
  t.filterMap fun
    | Event.acquire sid => some sid
    | _ => none

/-- The (handle, discard) payloads of the release events of a trace, in
order. -/
def releaseCalls (t : List Event) : List (Option Nat × Bool) :=
  t.filterMap fun
    | Event.release sid d => some (sid, d)
    | _ => none

/-- Default configuration of the source (src/index.js lines 203-213,
without environment overrides). -/
def defaultConfig : Config :=
  { explicitTimeout := 10000
    implicitTimeout := 2000
    renderTimeout := 20000
    maxRetries := 2
    cacheTTL := 300 }

/-- Result of Node url.parse as far as the validation at src/index.js
line 157 inspects it: the protocol and host fields, each absent (null)
or a string. -/
structure ParsedUrl where
  protocol : Option String
  host : Option String
deriving DecidableEq, Repr

/-- JavaScript truthiness of an optional string field: null/undefined
and the empty string are falsy. -/
def truthyOptStr : Option String → Bool
  | none => false
  | some s => !s.isEmpty

/-- ASCII lowercasing of one character, the case folding the
case-insensitive regex flag performs on the ASCII pattern letters. -/
def lowerChar (c : Char) : Char :=
  if 65 ≤ c.toNat ∧ c.toNat ≤ 90 then Char.ofNat (c.toNat + 32) else c

/-- ASCII lowercasing of a string. -/
def lowerStr (s : String) : String := String.mk (s.data.map lowerChar)

/-- The regular expression test protocol.match(/^https?:\x24/i): the
whole string, case-insensitively, is http: or https:. -/
def protocolMatches (p : String) : Bool :=
  lowerStr p = "http:" || lowerStr p = "https:"

/-- The rejection test of PrerenderServer.handleRequest (src/index.js
line 157): !parsed.protocol || !parsed.protocol.match(/^https?:\x24/i)
|| !parsed.host. -/
def invalidUrl (p : ParsedUrl) : Bool :=
  !truthyOptStr p.protocol
    || !protocolMatches (p.protocol.getD "")
    || !truthyOptStr p.host

/-- Entry of the TTL cache: key, value and absolute expiry instant
(in seconds, matching the cacheTTL unit). -/
structure CacheEntry where
  url : String
  html : String
  expiresAt : Nat
deriving DecidableEq, Repr

/-- State of the TTL cache, newest entry first. -/
abbrev CacheState := List CacheEntry

/-- Modelled from the spec: the Result Cache store is the external
node-cache package, only configured in src/index.js (makeCache, lines
185-190, stdTTL = cacheTTL seconds); its get/set are not part of this
repository.  Following the spec of §4.3 and §3: get(url) returns the
html stored for exactly that url string while the entry is unexpired,
miss otherwise; reading never refreshes the expiry (get takes the clock
as a read-only argument and returns no new state). -/
def cacheGet (c : CacheState) (url : String) (now : Nat) : Option String :=
  match c.find? (fun e => e.url = url) with
  | some e => if now < e.expiresAt then some e.html else none
  | none => none

/-- Modelled from the spec: set(url, html) with the TTL applied at
insertion time — the new entry expires cacheTTL seconds after the
insertion instant and replaces any previous entry for the same url
(last write wins). -/
def cacheSet (c : CacheState) (url html : String) (now ttl : Nat) :
    CacheState :=
  { url := url, html := html, expiresAt := now + ttl } ::
    c.filter (fun e => e.url ≠ url)

/-- Retry wrapper promiseRetry(retry => this.driverRun(rawUrl).catch(retry),
\x7bretries: this.config.maxRetries\x7d) (src/index.js lines 167-169):
run the attempt with index i; on success resolve with it; on failure,
if retry budget remains, recurse on the next attempt, otherwise reject
with that attempt's error.  Returns (number of attempts made, the
concatenated event trace, the settled result). -/
def retryLoop (cfg : Config) (attempts : Nat → DriverEnv) :
    Nat → Nat → Nat × List Event × Except ErrCode RenderInfo
  | i, 0 => ((1 : Nat), driverRun cfg (attempts i))
  | i, n + 1 =>
    let (tr, r) := driverRun cfg (attempts i)
    match r with
    | Except.ok info => (1, tr, Except.ok info)
    | Except.error _ =>
      let (cnt, tr2, r2) := retryLoop cfg attempts (i + 1) n
      (cnt + 1, tr ++ tr2, r2)

/-- Request-handler-level observable events: cache reads and writes,
and the pool/driver events of the render attempts. -/
inductive ReqEvent
  | cacheRead (url : String)
  | cacheWrite (url html : String)
  | drv (e : Event)
deriving DecidableEq, Repr

/-- Everything PrerenderServer.handleRequest leaves behind: the events,
the settled promise (ok data answered with HTTP 200, error answered
with HTTP 500 by makeHTTPServer), the cache state after the call, and
how many driverRun attempts were made. -/
structure HandleResult where
  events : List ReqEvent
  response : Except ErrCode String
  cache : CacheState
  attemptsMade : Nat
deriving DecidableEq, Repr

/-- PrerenderServer.handleRequest (src/index.js lines 154-179) for one
request: rawUrl is the decoded path, parsed its url.parse image, cache
the cache state at the time of the call, now the clock instant (held
fixed across the call), attempts the outcomes of the driverRun
attempts the call would make.  Invalid URLs resolve 'INVALID URL'
before any cache or pool interaction; a truthy cached value resolves
immediately; otherwise the retry wrapper runs and a pageOk outcome is
written through to the cache before its source resolves. -/
def handleRequest (cfg : Config) (rawUrl : String) (parsed : ParsedUrl)
    (cache : CacheState) (now : Nat) (attempts : Nat → DriverEnv) :
    HandleResult :=
  if invalidUrl parsed then
    { events := []
      response := Except.ok "INVALID URL"
      cache := cache
      attemptsMade := 0 }
  else
    let cached := cacheGet cache rawUrl now
    if truthyOptStr cached then
      { events := [ReqEvent.cacheRead rawUrl]
        response := Except.ok (cached.getD "")
        cache := cache
        attemptsMade := 0 }
    else
      let (cnt, tr, r) := retryLoop cfg attempts 0 cfg.maxRetries
      let drvEvs := tr.map ReqEvent.drv
      match r with
      | Except.error e =>
        { events := ReqEvent.cacheRead rawUrl :: drvEvs
          response := Except.error e
          cache := cache
          attemptsMade := cnt }
      | Except.ok info =>
        if info.pageOk then
          { events := ReqEvent.cacheRead rawUrl :: drvEvs ++
              [ReqEvent.cacheWrite rawUrl info.source]
            response := Except.ok info.source
            cache := cacheSet cache rawUrl info.source now cfg.cacheTTL
            attemptsMade := cnt }
        else
          { events := ReqEvent.cacheRead rawUrl :: drvEvs
            response := Except.ok info.source
            cache := cache
            attemptsMade := cnt }

/-- HTTP status makeHTTPServer (src/index.js lines 54-64) answers with:
200 when handleRequest resolves, 500 when it rejects. -/
def statusOf : Except ErrCode String → Nat
  | Except.ok _ => 200
  | Except.error _ => 500

/-- True exactly on rejected promise results. -/
def isErr {α : Type} : Except ErrCode α → Bool
  | Except.error _ => true
  | Except.ok _ => false

/-- The value of the driver variable of driverRun at the moment its
catch handler would run: none unless pool.getDriver completed before
anything failed. -/
def boundDriver (env : DriverEnv) : Option Nat :=
  if env.timeoutAt = some 0 then none
  else
    match env.acquire with
    | Except.ok sid => some sid
    | Except.error _ => none

/-- Serialized page source used by the concrete environments. -/
def okSource : String :=
  "<html><head><meta name=fragment></head><body>ok</body></html>"

/-- Concrete attempt environment of a fully successful render. -/
def envRenderOk : DriverEnv :=
  { acquire := Except.ok 0
    probeResult := Except.ok (JsValue.bool true)
    waitBecomesReady := true
    markerResult := Except.ok true
    sourceResult := Except.ok okSource
    timeoutAt := none }

/-- Concrete attempt in which the renderTimeout deadline expires while
pool.getDriver is still pending (pool exhausted longer than the
deadline). -/
def envTimeoutDuringAcquire : DriverEnv :=
  { envRenderOk with timeoutAt := some 0 }

/-- Concrete attempt in which pool.getDriver itself rejects. -/
def envPoolFailure : DriverEnv :=
  { envRenderOk with
      acquire := Except.error (ErrCode.other "pool gave no driver") }

/-- Concrete attempt in which the session transport is dead: the probe
rejects with ECONNREFUSED. -/
def envUnresponsive : DriverEnv :=
  { envRenderOk with probeResult := Except.error ErrCode.econnrefused }

/-- Concrete attempt in which navigation/probe fails at page level. -/
def envNavFailure : DriverEnv :=
  { envRenderOk with
      probeResult := Except.error (ErrCode.other "navigation failed") }

/-- Concrete attempt whose page reports prerenderReady = false and
never becomes ready before explicitTimeout. -/
def envExplicitStuck : DriverEnv :=
  { envRenderOk with
      probeResult := Except.ok (JsValue.bool false)
      waitBecomesReady := false }

/-- Concrete attempt whose page never defines prerenderReady. -/
def envUnknownSignal : DriverEnv :=
  { envRenderOk with probeResult := Except.ok JsValue.undef }

/-- Concrete attempt whose page sets prerenderReady = null. -/
def envNullSignal : DriverEnv :=
  { envRenderOk with probeResult := Except.ok JsValue.null }

/-!  Supporting lemmas about the embedded operations.  -/

theorem catchHandler_eq (d : Option Nat) (e : ErrCode) :
    catchHandler d e = ([Event.release d false], Except.error e) := by
  unfold catchHandler
  split <;> rfl

/-- Every driverRun trace contains exactly one release call; it passes
the driver variable as bound at that point and never a discard flag. -/
theorem driverRun_releaseCalls (cfg : Config) (env : DriverEnv) :
    releaseCalls (driverRun cfg env).1 = [(boundDriver env, false)] := by
  obtain ⟨acq, probe, wb, marker, srcR, tAt⟩ := env
  simp only [driverRun, catchHandler_eq, boundDriver]
  repeat' split
  all_goals simp_all [releaseCalls]

/-- A driverRun trace contains an acquire event exactly when
pool.getDriver completed, and then exactly one, for that session. -/
theorem driverRun_acquiredSids (cfg : Config) (env : DriverEnv) :
    acquiredSids (driverRun cfg env).1 = (boundDriver env).toList := by
  obtain ⟨acq, probe, wb, marker, srcR, tAt⟩ := env
  simp only [driverRun, catchHandler_eq, boundDriver]
  repeat' split
  all_goals simp_all [acquiredSids]

theorem retryLoop_allFail (cfg : Config) (A : Nat → DriverEnv) :
    ∀ n i, (∀ j, j ≤ n → isErr (driverRun cfg (A (i + j))).2 = true) →
      (retryLoop cfg A i n).1 = n + 1 ∧
      (retryLoop cfg A i n).2.2 = (driverRun cfg (A (i + n))).2 := by
  intro n
  induction n with
  | zero =>
    intro i h
    simp [retryLoop]
  | succ n ih =>
    intro i h
    have h0 := h 0 (Nat.zero_le _)
    simp only [Nat.add_zero] at h0
    have ih2 := ih (i + 1) (fun j hj => by
      have hh := h (j + 1) (Nat.succ_le_succ hj)
      have heq : i + (j + 1) = i + 1 + j := by omega
      rwa [heq] at hh)
    simp only [retryLoop]
    rcases hr : driverRun cfg (A i) with ⟨tr, r⟩
    rcases r with e | info
    · rcases hre : retryLoop cfg A (i + 1) n with ⟨cnt, tr2, r2⟩
      rw [hre] at ih2
      simp only at ih2
      have heq : i + 1 + n = i + (n + 1) := by omega
      rw [heq] at ih2
      simp [ih2.1, ih2.2]
    · rw [hr] at h0
      simp [isErr] at h0

theorem retryLoop_firstOk (cfg : Config) (A : Nat → DriverEnv)
    (info : RenderInfo) :
    ∀ k n i, k ≤ n →
      (∀ j, j < k → isErr (driverRun cfg (A (i + j))).2 = true) →
      (driverRun cfg (A (i + k))).2 = Except.ok info →
      (retryLoop cfg A i n).1 = k + 1 ∧
      (retryLoop cfg A i n).2.2 = Except.ok info := by
  intro k
  induction k with
  | zero =>
    intro n i _ _ hok
    simp only [Nat.add_zero] at hok
    rcases n with _ | m
    · simp [retryLoop, hok]
    · simp only [retryLoop]
      rcases hr : driverRun cfg (A i) with ⟨tr, r⟩
      rw [hr] at hok
      simp only at hok
      subst hok
      simp
  | succ k ih =>
    intro n i hkn hfail hok
    rcases n with _ | m
    · omega
    have h0 := hfail 0 (Nat.succ_pos _)
    simp only [Nat.add_zero] at h0
    have ihk := ih m (i + 1) (Nat.le_of_succ_le_succ hkn)
      (fun j hj => by
        have hh := hfail (j + 1) (Nat.succ_lt_succ hj)
        have heq : i + (j + 1) = i + 1 + j := by omega
        rwa [heq] at hh)
      (by
        have heq : i + (k + 1) = i + 1 + k := by omega
        rwa [heq] at hok)
    simp only [retryLoop]
    rcases hr : driverRun cfg (A i) with ⟨tr, r⟩
    rcases r with e | info2
    · rcases hre : retryLoop cfg A (i + 1) m with ⟨cnt, tr2, r2⟩
      rw [hre] at ihk
      simp only at ihk
      simp [ihk.1, ihk.2]
    · rw [hr] at h0
      simp [isErr] at h0

theorem retryLoop_mem_first (cfg : Config) (A : Nat → DriverEnv)
    (n i : Nat) (e : Event) (he : e ∈ (driverRun cfg (A i)).1) :
    e ∈ (retryLoop cfg A i n).2.1 := by
  rcases n with _ | m
  · simpa [retryLoop] using he
  · simp only [retryLoop]
    rcases hr : driverRun cfg (A i) with ⟨tr, r⟩
    rw [hr] at he
    simp only at he
    rcases r with er | info
    · rcases hre : retryLoop cfg A (i + 1) m with ⟨cnt, tr2, r2⟩
      simp [List.mem_append, he]
    · simpa using he

theorem retryLoop_attempts_pos (cfg : Config) (A : Nat → DriverEnv)
    (n i : Nat) : 1 ≤ (retryLoop cfg A i n).1 := by
  rcases n with _ | m
  · simp [retryLoop]
  · simp only [retryLoop]
    rcases hr : driverRun cfg (A i) with ⟨tr, r⟩
    rcases r with er | info
    · rcases hre : retryLoop cfg A (i + 1) m with ⟨cnt, tr2, r2⟩
      simp
    · simp

/-- Looking a key up past a filter that only removes other keys is the
same as looking it up directly. -/
theorem find?_filter_ne (c : CacheState) (url u : String) (hne : u ≠ url) :
    (c.filter (fun e => e.url ≠ url)).find? (fun e => e.url = u) =
      c.find? (fun e => e.url = u) := by
  induction c with
  | nil => rfl
  | cons hd tl ih =>
    by_cases hk : hd.url = url
    · have hdu : ¬((fun e : CacheEntry => decide (e.url = u)) hd = true) := by
        simp only [decide_eq_true_eq]
        rw [hk]
        exact fun h => hne h.symm
      rw [List.filter_cons_of_neg (by simp [hk]), ih,
        List.find?_cons_of_neg tl hdu]
    · rw [List.filter_cons_of_pos (by simp [hk])]
      by_cases hh : hd.url = u
      · rw [List.find?_cons_of_pos _ (by simp [hh]),
          List.find?_cons_of_pos _ (by simp [hh])]
      · rw [List.find?_cons_of_neg _ (by simp [hh]),
          List.find?_cons_of_neg _ (by simp [hh]), ih]

/-- When pool.getDriver completed before any failure, the attempt trace
contains the acquire event of that session. -/
theorem driverRun_mem_acquire (cfg : Config) (env : DriverEnv) (sid : Nat)
    (ht : env.timeoutAt ≠ some 0) (hacq : env.acquire = Except.ok sid) :
    Event.acquire sid ∈ (driverRun cfg env).1 := by
  obtain ⟨acq, probe, wb, marker, srcR, tAt⟩ := env
  simp only at hacq ht
  subst hacq
  simp only [driverRun, catchHandler_eq]
  repeat' split
  all_goals simp_all

/-!  Theorems settling the claims.  -/

/-- Claim C1: for every driverRun outcome a Session acquired from the
pool is released exactly once, never twice and never for a Session that
was not acquired.  The code violates the last part: when the
renderTimeout deadline expires while pool.getDriver is still pending,
and likewise when pool.getDriver rejects, the catch handler still calls
pool.returnDriver(driver) with the driver variable undefined — the
trace carries one release call and zero acquisitions, so acquisitions
and releases do not balance and a release happens for a Session that
was never acquired.  This theorem evaluates the code at both failing
inputs. -/
theorem c1_release_without_acquisition :
    (driverRun defaultConfig envTimeoutDuringAcquire).1 =
      [Event.release none false] ∧
    (driverRun defaultConfig envTimeoutDuringAcquire).2 =
      Except.error ErrCode.timeoutErr ∧
    acquiredSids (driverRun defaultConfig envTimeoutDuringAcquire).1 = [] ∧
    (driverRun defaultConfig envPoolFailure).1 = [Event.release none false] ∧
    acquiredSids (driverRun defaultConfig envPoolFailure).1 = [] :=
  ⟨rfl, rfl, rfl, rfl, rfl⟩

/-- Claim C2, counterexample to the claim as stated: the claim says a
session-unresponsive (ECONNREFUSED) failure releases the Session with a
discard-and-replace instruction, unlike other failures.  On the code,
the release call of the ECONNREFUSED attempt is identical to the
release call of a navigation-failure attempt — same handle, no discard
flag — so no discard instruction distinguishes the two. -/
theorem c2_counterexample :
    releaseCalls (driverRun defaultConfig envUnresponsive).1 =
      [(some 0, false)] ∧
    releaseCalls (driverRun defaultConfig envNavFailure).1 =
      [(some 0, false)] ∧
    (driverRun defaultConfig envUnresponsive).2 =
      Except.error ErrCode.econnrefused :=
  ⟨rfl, rfl, rfl⟩

/-- Claim C2 as amended: an attempt that fails with ECONNREFUSED
releases its Session through the same plain pool.returnDriver call used
for every other failure — the code passes no discard option on any
release, only logs a renewal warning — and rethrows the error so the
retry wrapper starts over; any renewal of the dead session is internal
behavior of the external pool, not requested by this code. -/
theorem c2_release_no_discard (cfg : Config) (env : DriverEnv) (sid : Nat)
    (hacq : env.acquire = Except.ok sid)
    (ht : env.timeoutAt = none)
    (hprobe : env.probeResult = Except.error ErrCode.econnrefused) :
    driverRun cfg env =
      ([Event.acquire sid, Event.release (some sid) false],
        Except.error ErrCode.econnrefused) ∧
    ∀ env2 : DriverEnv, ∀ s d,
      Event.release s d ∈ (driverRun cfg env2).1 → d = false := by
  constructor
  · obtain ⟨acq, probe, wb, marker, srcR, tAt⟩ := env
    simp only at hacq ht hprobe
    subst hacq ht hprobe
    simp [driverRun, catchHandler_eq]
  · intro env2 s d hmem
    have h1 : (s, d) ∈ releaseCalls (driverRun cfg env2).1 :=
      List.mem_filterMap.mpr ⟨Event.release s d, hmem, rfl⟩
    rw [driverRun_releaseCalls] at h1
    simp at h1
    exact h1.2

/-- Witness for C2 at the concrete unresponsive-session environment. -/
theorem c2_witness :
    driverRun defaultConfig envUnresponsive =
      ([Event.acquire 0, Event.release (some 0) false],
        Except.error ErrCode.econnrefused) :=
  (c2_release_no_discard defaultConfig envUnresponsive 0 rfl rfl rfl).1

/-- Claim C3: with maxRetries = N, a render whose attempts all fail
makes exactly N + 1 driverRun attempts (each of which starts from pool
acquisition) and surfaces the last attempt's error; an attempt that
succeeds after k failures stops the retrying immediately with k + 1
attempts made and its outcome resolved. -/
theorem c3_retry_attempt_count (cfg : Config) (A : Nat → DriverEnv) :
    ((∀ i, i ≤ cfg.maxRetries → isErr (driverRun cfg (A i)).2 = true) →
      (retryLoop cfg A 0 cfg.maxRetries).1 = cfg.maxRetries + 1 ∧
      (retryLoop cfg A 0 cfg.maxRetries).2.2 =
        (driverRun cfg (A cfg.maxRetries)).2) ∧
    (∀ k info, k ≤ cfg.maxRetries →
      (∀ j, j < k → isErr (driverRun cfg (A j)).2 = true) →
      (driverRun cfg (A k)).2 = Except.ok info →
      (retryLoop cfg A 0 cfg.maxRetries).1 = k + 1 ∧
      (retryLoop cfg A 0 cfg.maxRetries).2.2 = Except.ok info) := by
  constructor
  · intro h
    have hh := retryLoop_allFail cfg A cfg.maxRetries 0
      (fun j hj => by simpa using h j hj)
    simpa using hh
  · intro k info hk hf hok
    exact retryLoop_firstOk cfg A info k cfg.maxRetries 0 hk
      (fun j hj => by simpa using hf j hj) (by simpa using hok)

/-- Witness for C3: a pool that always reports ECONNREFUSED under the
default maxRetries = 2 yields exactly 3 attempts and that error. -/
theorem c3_witness :
    (retryLoop defaultConfig (fun _ => envUnresponsive) 0
      defaultConfig.maxRetries).1 = 3 ∧
    (retryLoop defaultConfig (fun _ => envUnresponsive) 0
      defaultConfig.maxRetries).2.2 = Except.error ErrCode.econnrefused := by
  have h := (c3_retry_attempt_count defaultConfig
    (fun _ => envUnresponsive)).1 (fun i _ => rfl)
  exact ⟨h.1, h.2.trans rfl⟩

/-- Claim C4: on a completed render call, the HTML is inserted into the
cache exactly when the outcome is valid (pageOk, the marker element was
present): a pageOk outcome writes the entry through and a non-pageOk
outcome is returned to the requester while the cache is left untouched,
with no cache write event at all. -/
theorem c4_cache_insert_iff_valid (cfg : Config) (rawUrl : String)
    (parsed : ParsedUrl) (cache : CacheState) (now : Nat)
    (A : Nat → DriverEnv) (info : RenderInfo)
    (hval : invalidUrl parsed = false)
    (hmiss : truthyOptStr (cacheGet cache rawUrl now) = false)
    (hrun : (retryLoop cfg A 0 cfg.maxRetries).2.2 = Except.ok info) :
    (handleRequest cfg rawUrl parsed cache now A).response =
      Except.ok info.source ∧
    (info.pageOk = true →
      (handleRequest cfg rawUrl parsed cache now A).cache =
        cacheSet cache rawUrl info.source now cfg.cacheTTL ∧
      ReqEvent.cacheWrite rawUrl info.source ∈
        (handleRequest cfg rawUrl parsed cache now A).events) ∧
    (info.pageOk = false →
      (handleRequest cfg rawUrl parsed cache now A).cache = cache ∧
      ∀ u h, ReqEvent.cacheWrite u h ∉
        (handleRequest cfg rawUrl parsed cache now A).events) := by
  rcases hres : retryLoop cfg A 0 cfg.maxRetries with ⟨cnt, tr, r⟩
  rw [hres] at hrun
  simp only at hrun
  subst hrun
  by_cases hpk : info.pageOk
  · refine ⟨?_, fun _ => ⟨?_, ?_⟩, fun hcontra => by simp [hpk] at hcontra⟩ <;>
      simp [handleRequest, hval, hmiss, hres, hpk]
  · have hpk2 : info.pageOk = false := by simpa using hpk
    refine ⟨?_, fun hcontra => by simp [hpk2] at hcontra, fun _ => ⟨?_, ?_⟩⟩
    · simp [handleRequest, hval, hmiss, hres, hpk2]
    · simp [handleRequest, hval, hmiss, hres, hpk2]
    · intro u h hmem
      simp [handleRequest, hval, hmiss, hres, hpk2] at hmem

/-- Witness for C4 at a concrete valid render on an empty cache. -/
theorem c4_witness :
    (handleRequest defaultConfig "http://example.com/a"
      { protocol := some "http:", host := some "example.com" } [] 0
      (fun _ => envRenderOk)).response = Except.ok okSource ∧
    (handleRequest defaultConfig "http://example.com/a"
      { protocol := some "http:", host := some "example.com" } [] 0
      (fun _ => envRenderOk)).cache =
      cacheSet [] "http://example.com/a" okSource 0 defaultConfig.cacheTTL := by
  have h := c4_cache_insert_iff_valid defaultConfig "http://example.com/a"
    { protocol := some "http:", host := some "example.com" } [] 0
    (fun _ => envRenderOk) { pageOk := true, source := okSource }
    (by decide) rfl rfl
  exact ⟨h.1, (h.2.1 rfl).1⟩

/-- Claim C5: a request whose path does not decode to an absolute
http(s) URL with a non-empty host resolves the fixed sentinel body with
a success (200) status, leaves the cache untouched and performs no
cache read, no cache write and no session acquisition — the event list
is empty, so malformed URLs never reach the orchestrator. -/
theorem c5_invalid_url_sentinel (cfg : Config) (rawUrl : String)
    (parsed : ParsedUrl) (cache : CacheState) (now : Nat)
    (A : Nat → DriverEnv)
    (hinv : invalidUrl parsed = true) :
    handleRequest cfg rawUrl parsed cache now A =
      { events := []
        response := Except.ok "INVALID URL"
        cache := cache
        attemptsMade := 0 } ∧
    statusOf (handleRequest cfg rawUrl parsed cache now A).response = 200 := by
  constructor
  · simp [handleRequest, hinv]
  · simp [handleRequest, hinv, statusOf]

/-- Witness for C5 at a path with no protocol and no host. -/
theorem c5_witness :
    handleRequest defaultConfig "not-a-url"
      { protocol := none, host := none } [] 0 (fun _ => envRenderOk) =
      { events := []
        response := Except.ok "INVALID URL"
        cache := []
        attemptsMade := 0 } :=
  (c5_invalid_url_sentinel defaultConfig "not-a-url"
    { protocol := none, host := none } [] 0 (fun _ => envRenderOk) rfl).1

/-- Claim C6: an attempt whose probe reads prerenderReady = false and
whose explicit wait never sees the page become ready proceeds past the
swallowed wait expiry through the marker validation and the extraction
and resolves a non-error outcome; the expiry alone never fails the
attempt. -/
theorem c6_explicit_timeout_nonfatal (cfg : Config) (env : DriverEnv)
    (sid : Nat) (b : Bool) (s : String)
    (hacq : env.acquire = Except.ok sid)
    (hprobe : env.probeResult = Except.ok (JsValue.bool false))
    (hwait : env.waitBecomesReady = false)
    (hmk : env.markerResult = Except.ok b)
    (hsrc : env.sourceResult = Except.ok s)
    (ht : env.timeoutAt = none) :
    driverRun cfg env =
      ([Event.acquire sid, Event.waitPoll false, Event.checkMarker,
        Event.extract, Event.release (some sid) false],
        Except.ok { pageOk := b, source := s }) := by
  obtain ⟨acq, probe, wb, marker, srcR, tAt⟩ := env
  simp only at hacq hprobe hwait hmk hsrc ht
  subst hacq hprobe hwait hmk hsrc ht
  simp [driverRun]

/-- Witness for C6 at the concrete stuck-explicit-signal environment. -/
theorem c6_witness :
    driverRun defaultConfig envExplicitStuck =
      ([Event.acquire 0, Event.waitPoll false, Event.checkMarker,
        Event.extract, Event.release (some 0) false],
        Except.ok { pageOk := true, source := okSource }) :=
  c6_explicit_timeout_nonfatal defaultConfig envExplicitStuck 0 true
    okSource rfl rfl rfl rfl rfl rfl

/-- Claim C7: an attempt whose probe reads prerenderReady = undefined
performs exactly one sleep, of implicitTimeout, never enters the
explicit re-probing wait, and proceeds to the marker validation. -/
theorem c7_unknown_single_sleep (cfg : Config) (env : DriverEnv) (sid : Nat)
    (hacq : env.acquire = Except.ok sid)
    (hprobe : env.probeResult = Except.ok JsValue.undef)
    (ht : env.timeoutAt = none) :
    (driverRun cfg env).1.countP isSleep = 1 ∧
    Event.sleep cfg.implicitTimeout ∈ (driverRun cfg env).1 ∧
    (driverRun cfg env).1.countP isWaitPoll = 0 ∧
    Event.checkMarker ∈ (driverRun cfg env).1 := by
  obtain ⟨acq, probe, wb, marker, srcR, tAt⟩ := env
  simp only at hacq hprobe ht
  subst hacq hprobe ht
  rcases marker with me | mb <;> rcases srcR with se | ss <;>
    simp [driverRun, catchHandler_eq, isSleep, isWaitPoll,
      List.countP_cons, List.countP_nil]

/-- Witness for C7 at the concrete absent-signal environment with the
default implicitTimeout of 2000ms. -/
theorem c7_witness :
    (driverRun defaultConfig envUnknownSignal).1.countP isSleep = 1 ∧
    Event.sleep 2000 ∈ (driverRun defaultConfig envUnknownSignal).1 ∧
    (driverRun defaultConfig envUnknownSignal).1.countP isWaitPoll = 0 ∧
    Event.checkMarker ∈ (driverRun defaultConfig envUnknownSignal).1 :=
  c7_unknown_single_sleep defaultConfig envUnknownSignal 0 rfl rfl rfl

/-- Claim C8: after set(url, html) at instant t0 with TTL ttl, get(url)
returns html for reads strictly before t0 + ttl and a miss from then
on; entries are keyed by the exact url string, so a set never disturbs
the lookup of any other key; reads take the clock as a read-only
argument and return no state, so a read never refreshes an expiry. -/
theorem c8_cache_ttl (c : CacheState) (url html u : String)
    (t0 ttl t : Nat) :
    (cacheGet (cacheSet c url html t0 ttl) url t =
      if t < t0 + ttl then some html else none) ∧
    (u ≠ url →
      cacheGet (cacheSet c url html t0 ttl) u t = cacheGet c u t) := by
  constructor
  · unfold cacheGet cacheSet
    rw [List.find?_cons_of_pos _ (by simp)]
  · intro hne
    unfold cacheGet cacheSet
    rw [List.find?_cons_of_neg _ (by
        simp only [decide_eq_true_eq]
        exact fun h => hne h.symm),
      find?_filter_ne c url u hne]

/-- Witness for C8: a concrete entry set at 100 with TTL 300 hits at
399, misses at 400, and leaves a different key unaffected. -/
theorem c8_witness :
    (cacheGet (cacheSet [] "http://e.com/a" "<h>" 100 300)
      "http://e.com/a" 399 = some "<h>") ∧
    (cacheGet (cacheSet [] "http://e.com/a" "<h>" 100 300)
      "http://e.com/a" 400 = none) ∧
    (cacheGet (cacheSet [] "http://e.com/a" "<h>" 100 300)
      "http://e.com/b" 200 = cacheGet [] "http://e.com/b" 200) := by
  refine ⟨?_, ?_, ?_⟩
  · have h := (c8_cache_ttl [] "http://e.com/a" "<h>" "x" 100 300 399).1
    simpa using h
  · have h := (c8_cache_ttl [] "http://e.com/a" "<h>" "x" 100 300 400).1
    simpa using h
  · exact (c8_cache_ttl [] "http://e.com/a" "<h>" "http://e.com/b"
      100 300 200).2 (by decide)

/-- Claim C9: the readiness classification compares the probed value
with strict equality, so every value other than exactly false and
exactly undefined — null, numbers such as 0, strings, true — proceeds
immediately to the marker validation with no explicit wait and no
implicit sleep. -/
theorem c9_ready_on_any_other_value (cfg : Config) (env : DriverEnv)
    (sid : Nat) (v : JsValue)
    (hacq : env.acquire = Except.ok sid)
    (hprobe : env.probeResult = Except.ok v)
    (hne1 : v ≠ JsValue.bool false)
    (hne2 : v ≠ JsValue.undef)
    (ht : env.timeoutAt = none) :
    (driverRun cfg env).1.countP isSleep = 0 ∧
    (driverRun cfg env).1.countP isWaitPoll = 0 ∧
    Event.checkMarker ∈ (driverRun cfg env).1 := by
  obtain ⟨acq, probe, wb, marker, srcR, tAt⟩ := env
  simp only at hacq hprobe ht
  subst hacq hprobe ht
  rcases marker with me | mb <;> rcases srcR with se | ss <;>
    simp [driverRun, catchHandler_eq, isSleep, isWaitPoll, hne1, hne2,
      List.countP_cons, List.countP_nil]

/-- Witness for C9 at the concrete prerenderReady = null environment. -/
theorem c9_witness :
    (driverRun defaultConfig envNullSignal).1.countP isSleep = 0 ∧
    (driverRun defaultConfig envNullSignal).1.countP isWaitPoll = 0 ∧
    Event.checkMarker ∈ (driverRun defaultConfig envNullSignal).1 :=
  c9_ready_on_any_other_value defaultConfig envNullSignal 0 JsValue.null
    rfl rfl (by decide) (by decide) rfl

/-- Claim C10: a cache hit is recognized by truthiness, not key
presence — when an unexpired entry stores the empty string, a request
for that url takes the render path: at least one attempt runs and a
fresh session acquisition appears among the events. -/
theorem c10_empty_cached_is_miss (cfg : Config) (rawUrl : String)
    (parsed : ParsedUrl) (cache : CacheState) (now : Nat)
    (A : Nat → DriverEnv) (sid : Nat)
    (hval : invalidUrl parsed = false)
    (hcached : cacheGet cache rawUrl now = some "")
    (hacq : (A 0).acquire = Except.ok sid)
    (ht : (A 0).timeoutAt ≠ some 0) :
    1 ≤ (handleRequest cfg rawUrl parsed cache now A).attemptsMade ∧
    ReqEvent.drv (Event.acquire sid) ∈
      (handleRequest cfg rawUrl parsed cache now A).events := by
  have hmiss : truthyOptStr (cacheGet cache rawUrl now) = false := by
    rw [hcached]
    rfl
  have hmem0 : Event.acquire sid ∈ (driverRun cfg (A 0)).1 :=
    driverRun_mem_acquire cfg (A 0) sid ht hacq
  have hmemT : Event.acquire sid ∈ (retryLoop cfg A 0 cfg.maxRetries).2.1 :=
    retryLoop_mem_first cfg A cfg.maxRetries 0 _ hmem0
  have hcnt := retryLoop_attempts_pos cfg A cfg.maxRetries 0
  rcases hres : retryLoop cfg A 0 cfg.maxRetries with ⟨cnt, tr, r⟩
  rw [hres] at hmemT hcnt
  simp only at hmemT hcnt
  rcases r with e | info
  · constructor
    · simpa [handleRequest, hval, hmiss, hres] using hcnt
    · simpa [handleRequest, hval, hmiss, hres, List.mem_map] using hmemT
  · by_cases hpk : info.pageOk
    · constructor
      · simpa [handleRequest, hval, hmiss, hres, hpk] using hcnt
      · simpa [handleRequest, hval, hmiss, hres, hpk, List.mem_map]
          using hmemT
    · have hpk2 : info.pageOk = false := by simpa using hpk
      constructor
      · simpa [handleRequest, hval, hmiss, hres, hpk2] using hcnt
      · simpa [handleRequest, hval, hmiss, hres, hpk2, List.mem_map]
          using hmemT

/-- Witness for C10: a cached empty string for the requested url still
leads to a render with a session acquisition. -/
theorem c10_witness :
    1 ≤ (handleRequest defaultConfig "http://example.com/a"
      { protocol := some "http:", host := some "example.com" }
      [{ url := "http://example.com/a", html := "", expiresAt := 100 }] 0
      (fun _ => envRenderOk)).attemptsMade ∧
    ReqEvent.drv (Event.acquire 0) ∈
      (handleRequest defaultConfig "http://example.com/a"
        { protocol := some "http:", host := some "example.com" }
        [{ url := "http://example.com/a", html := "", expiresAt := 100 }] 0
        (fun _ => envRenderOk)).events :=
  c10_empty_cached_is_miss defaultConfig "http://example.com/a"
    { protocol := some "http:", host := some "example.com" }
    [{ url := "http://example.com/a", html := "", expiresAt := 100 }] 0
    (fun _ => envRenderOk) 0 (by decide) (by decide) rfl (by decide)

end PrerenderShim
